import Mathlib

/-!
Shallow embedding of the message routing and tool-invocation dispatcher of
the agentkit repository (src/agentkit/api/endpoints/messaging.py), together
with the collaborator interfaces it consumes:
  - agent directory lookup (src/agentkit/registration/storage.py),
  - tool registry lookups (src/agentkit/tools/registry.py),
  - the pydantic data model (src/agentkit/core/models.py).

Python dictionaries with string keys are embedded as association lists,
JSON-able Python values as the inductive type `Json`, and the outbound HTTP
layer (httpx) as an oracle mapping a (url, body) pair to the result of the
call.  The FastAPI endpoint `run_agent` becomes a pure function returning
either an `HTTPException` (a raised FastAPI error) or an `ApiResponse`
(a normal return, which this route serves with status code 202), together
with the ordered trace of collaborator effects it performed.  The background
task `dispatch_to_agent_endpoint` becomes a pure function returning the HTTP
calls it attempted, the log records it emitted and the exception (if any)
escaping the task.
-/

set_option autoImplicit false

namespace AgentKit

/-- JSON-able Python value: None, bool, int, str, list, dict with string
keys.  Python floats are not used by any dispatcher branch and are omitted;
numbers are embedded as integers. -/
inductive Json where
  | null
  | bool (b : Bool)
  | num (n : Int)
  | str (s : String)
  | arr (elems : List Json)
  | obj (fields : List (String × Json))

/-- Association-list lookup embedding Python `dict.get(key)` for a
string-keyed dict (keys are unique in a Python dict, so first match
suffices). -/
def dictGet {α : Type} (kvs : List (String × α)) (k : String) : Option α :=
  match kvs with
  | [] => none
  | (k2, v) :: rest => if k2 == k then some v else dictGet rest k

mutual
/-- Embedding of Python `repr` restricted to JSON-able values, as produced
by an f-string interpolating a decoded JSON object.  String escaping inside
reprs is not modelled (no claim depends on it). -/
def Json.pyRepr : Json → String
  | .null => "None"
  | .bool true => "True"
  | .bool false => "False"
  | .num n => toString n
  | .str s => "\x27" ++ s ++ "\x27"
  | .arr xs => "[" ++ Json.pyReprList xs ++ "]"
  | .obj kvs => "\x7b" ++ Json.pyReprFields kvs ++ "\x7d"

/-- Comma-separated reprs of the elements of a Python list. -/
def Json.pyReprList : List Json → String
  | [] => ""
  | [x] => Json.pyRepr x
  | x :: rest => Json.pyRepr x ++ ", " ++ Json.pyReprList rest

/-- Comma-separated reprs of the entries of a Python dict. -/
def Json.pyReprFields : List (String × Json) → String
  | [] => ""
  | [(k, v)] => "\x27" ++ k ++ "\x27: " ++ Json.pyRepr v
  | (k, v) :: rest =>
      "\x27" ++ k ++ "\x27: " ++ Json.pyRepr v ++ ", " ++ Json.pyReprFields rest
end

/-- Embedding of Python `str()` on a JSON-able value, as used by f-string
interpolation: a string renders bare, everything else via `repr`. -/
def Json.pyStr : Json → String
  | .str s => s
  | j => Json.pyRepr j

/-- Embedding of Python truth-value testing (`not x`) on JSON-able values:
None, False, 0, empty string, empty list and empty dict are falsy. -/
def Json.falsy : Json → Bool
  | .null => true
  | .bool b => !b
  | .num n => n == 0
  | .str s => s == ""
  | .arr xs => xs.isEmpty
  | .obj kvs => kvs.isEmpty

/-- Python truthiness of `dict.get(k)`: a missing key yields None, which is
falsy. -/
def optFalsy : Option Json → Bool
  | none => true
  | some j => j.falsy

/-- The dispatcher test `isinstance(tool_result, dict) and
tool_result.get(status) == error`: a handled tool error. -/
def Json.isErrorDict : Json → Bool
  | .obj kvs =>
      match dictGet kvs "status" with
      | some (.str s) => s == "error"
      | _ => false
  | _ => false

/-- The interpolated `tool_result.get(error_message, Unknown tool error)`
used in the failure message for handled tool errors. -/
def errMsgStr (tool_result : Json) : String :=
  match tool_result with
  | .obj kvs =>
      match dictGet kvs "error_message" with
      | some v => Json.pyStr v
      | none => "Unknown tool error"
  | _ => "Unknown tool error"

/-- Registry lookup keyed by a Python value: `_registry.get(tool_name)`
where the registry is a string-keyed dict.  A non-string key never matches.
(The Python TypeError on unhashable keys, reachable only when the caller
sends a list or dict as `tool_name`, is not modelled; no claim touches it.) -/
def lookupByJson {α : Type} (reg : List (String × α)) (k : Json) : Option α :=
  match k with
  | .str s => dictGet reg s
  | _ => none

/-- Modelled from pydantic: `HttpUrl` validation, restricted to what the
dispatcher needs — an absolute http(s) URL with a nonempty host.  pydantic
is an external library; this captures the valid/invalid split the code
branches on. -/
def isValidHttpUrl (s : String) : Bool :=
  if s.data.take 7 == "http://".data then
    !(((s.data.drop 7).takeWhile (fun c => c != '/')).isEmpty)
  else if s.data.take 8 == "https://".data then
    !(((s.data.drop 8).takeWhile (fun c => c != '/')).isEmpty)
  else
    false

/-- Embedding of `agentkit.core.models.SessionContext`. -/
structure SessionContext where
  sessionId : Option String
  priorMessages : List String

/-- The `model_dump(mode=json)` of a SessionContext, as passed to a local
tool as its `context` argument. -/
def SessionContext.dumpJson (c : SessionContext) : Json :=
  Json.obj
    [("sessionId", match c.sessionId with | none => Json.null | some s => Json.str s),
     ("priorMessages", Json.arr (c.priorMessages.map Json.str))]

/-- Embedding of `agentkit.core.models.MessagePayload`.  The `timestamp`
datetime is embedded as an abstract tick; `model_dump(mode=json)` renders it
as a number rather than an ISO string (no claim depends on its format). -/
structure MessagePayload where
  senderId : String
  timestamp : Nat
  messageType : String
  payload : List (String × Json)
  sessionContext : Option SessionContext
  task_name : Option String
  opscore_session_id : Option String
  opscore_task_id : Option String

/-- Helper for dumping optional string fields. -/
def optStrJson : Option String → Json
  | none => Json.null
  | some s => Json.str s

/-- The `model_dump(mode=json)` of a MessagePayload, as serialized by the
background dispatch task before the forward HTTP POST. -/
def MessagePayload.dumpJson (p : MessagePayload) : Json :=
  Json.obj
    [("senderId", Json.str p.senderId),
     ("timestamp", Json.num (Int.ofNat p.timestamp)),
     ("messageType", Json.str p.messageType),
     ("payload", Json.obj p.payload),
     ("sessionContext",
        match p.sessionContext with | none => Json.null | some c => c.dumpJson),
     ("task_name", optStrJson p.task_name),
     ("opscore_session_id", optStrJson p.opscore_session_id),
     ("opscore_task_id", optStrJson p.opscore_task_id)]

/-- Embedding of `agentkit.core.models.AgentInfo`.  In pydantic the
`contactEndpoint` field is typed `HttpUrl`, but the dispatcher defensively
guards the falsy case (and the test suite sets the field to None in
storage), so the embedding carries it as an optional raw string. -/
structure AgentInfo where
  agentId : String
  agentName : String
  capabilities : List String
  version : String
  contactEndpoint : Option String
  metadata : Option Json
  registration_time : Nat

/-- Embedding of `agentkit.core.models.ApiResponse`. -/
structure ApiResponse where
  status : String
  message : Option String
  data : Option Json
  error_code : Option String

/-- Embedding of `fastapi.HTTPException` as raised by the dispatcher. -/
structure HTTPException where
  status_code : Nat
  detail : String

/-- Result of one local tool execution (`tool_class()` instantiation plus
`execute(parameters, context)`): either a returned value, or an exception
carrying a message (both instantiation and execution failures are caught by
the same handler in the dispatcher). -/
inductive ToolExecResult where
  | ok (value : Json)
  | raises (message : String)

/-- A registered local tool class, as stored by `ToolRegistry.register_tool`:
invoked with the `parameters` and `context` the dispatcher passes to
`execute`. -/
def LocalToolClass : Type := Json → Option Json → ToolExecResult

/-- Result of one outbound httpx POST.  A `response` carries the status
code, the outcome of `response.json()` (which may fail to parse), and the
raw `response.text`.  `timeout`, `connectError`, `remoteProtocolError` and
`otherError` are the httpx exception classes the dispatcher distinguishes. -/
inductive HttpCallResult where
  | response (statusCode : Nat) (jsonBody : Except String Json) (text : String)
  | timeout (message : String)
  | connectError
  | remoteProtocolError (message : String)
  | otherError (message : String)

/-- The network oracle: the result of POSTing a JSON body to a URL. -/
def Net : Type := String → Json → HttpCallResult

/-- Collaborator state visible to the dispatcher: the agent directory
(`agent_storage._agent_registry`), the external tool endpoint registry
(`_external_tool_endpoints`) and the local tool class registry
(`_tool_registry`). -/
structure Env where
  agents : List (String × AgentInfo)
  externalToolEndpoints : List (String × String)
  localToolClasses : List (String × LocalToolClass)

/-- One collaborator effect performed by `run_agent`, in program order:
directory lookup, tool endpoint lookup, tool class lookup, a blocking
outbound HTTP POST (with its timeout in seconds), a local tool execution,
or the scheduling of a background dispatch task. -/
inductive Effect where
  | directoryLookup (agentId : String)
  | toolEndpointLookup (toolName : Json)
  | toolClassLookup (toolName : Json)
  | httpPost (url : String) (body : Json) (timeoutSeconds : ℚ)
  | localExec (toolName : Json) (parameters : Json) (context : Option Json)
  | scheduleTask (agentId : String) (contactEndpoint : String) (payload : MessagePayload)

/-- The outcome of one `run_agent` call: a raised `HTTPException` or a
returned `ApiResponse`, plus the ordered effect trace. -/
structure RunOutput where
  result : Except HTTPException ApiResponse
  effects : List Effect

/-- Timeout for external calls: `EXTERNAL_CALL_TIMEOUT = 15.0` seconds in
messaging.py. -/
def EXTERNAL_CALL_TIMEOUT : ℚ := 15

/-- Test whether httpx `raise_for_status` passes: the response status code
is in the 2xx success range. -/
def is2xx (c : Nat) : Bool := 200 ≤ c && c ≤ 299

/-- The `except httpx.HTTPStatusError` detail string: the status line plus
the response body (parsed JSON repr if it decodes, raw text otherwise). -/
def httpStatusErrorDetail (base : String) (jsonBody : Except String Json)
    (text : String) : String :=
  match jsonBody with
  | .ok d => base ++ " - Response: " ++ Json.pyRepr d
  | .error _ => base ++ " - Response: " ++ text

/-- The branch of `run_agent` invoking an external tool over HTTP
(messaging.py lines 79-125), given the already-rendered tool name string
`tnS`, the extracted `arguments` and the registered `external_endpoint`. -/
def externalToolOutcome (net : Net) (tnS : String) (arguments : Json)
    (external_endpoint : String) : Except HTTPException ApiResponse :=
  let reqBody := Json.obj [("arguments", arguments)]
  match net external_endpoint reqBody with
  | .timeout _ =>
      .error ⟨504, "Request to external tool \x27" ++ tnS ++ "\x27 timed out."⟩
  | .connectError =>
      .error ⟨503, "Could not connect to external tool \x27" ++ tnS ++ "\x27 at "
        ++ external_endpoint ++ "."⟩
  | .remoteProtocolError m =>
      .error ⟨500, "An unexpected error occurred while calling external tool \x27"
        ++ tnS ++ "\x27: " ++ m⟩
  | .otherError m =>
      .error ⟨500, "An unexpected error occurred while calling external tool \x27"
        ++ tnS ++ "\x27: " ++ m⟩
  | .response statusCode jsonBody text =>
      if is2xx statusCode then
        match jsonBody with
        | .error m =>
            .error ⟨500, "An unexpected error occurred while calling external tool \x27"
              ++ tnS ++ "\x27: " ++ m⟩
        | .ok tool_result =>
            if tool_result.isErrorDict then
              .ok ⟨"error",
                some ("External tool \x27" ++ tnS ++ "\x27 execution failed: "
                  ++ errMsgStr tool_result),
                some tool_result, some "EXTERNAL_TOOL_EXECUTION_FAILED"⟩
            else
              .ok ⟨"success",
                some ("External tool \x27" ++ tnS ++ "\x27 executed successfully."),
                some tool_result, none⟩
      else
        .error ⟨statusCode,
          httpStatusErrorDetail
            ("External tool \x27" ++ tnS ++ "\x27 returned error: Status "
              ++ toString statusCode)
            jsonBody text⟩

/-- The branch of `run_agent` executing a local tool class (messaging.py
lines 138-168), given the rendered tool name `tnS` and the result of
`tool_class().execute(parameters=arguments, context=context)`. -/
def localToolOutcome (tnS : String) (execResult : ToolExecResult) :
    Except HTTPException ApiResponse :=
  match execResult with
  | .raises m =>
      .error ⟨500, "An unexpected error occurred while executing local tool \x27"
        ++ tnS ++ "\x27: " ++ m⟩
  | .ok tool_result =>
      if tool_result.isErrorDict then
        .ok ⟨"error",
          some ("Local tool \x27" ++ tnS ++ "\x27 execution failed: "
            ++ errMsgStr tool_result),
          some tool_result, some "LOCAL_TOOL_EXECUTION_FAILED"⟩
      else
        .ok ⟨"success",
          some ("Local tool \x27" ++ tnS ++ "\x27 executed successfully."),
          some tool_result, none⟩

/-- The tool-invocation branch of `run_agent` (messaging.py lines 66-168):
extract the tool name and arguments, reject a missing/empty tool name, then
try the external endpoint registry before the local class registry.  The
effect list is relative to the branch entry (the directory lookup is
prepended by `run_agent`). -/
def toolInvocationOutput (env : Env) (net : Net) (payload : MessagePayload) :
    RunOutput :=
  let tool_name := dictGet payload.payload "tool_name"
  let arguments := (dictGet payload.payload "arguments").getD (Json.obj [])
  if optFalsy tool_name then
    ⟨.error ⟨400,
      "Missing \x27tool_name\x27 in payload for tool_invocation message type."⟩, []⟩
  else
    let tn := tool_name.getD Json.null
    let tnS := tn.pyStr
    match lookupByJson env.externalToolEndpoints tn with
    | some external_endpoint =>
        let reqBody := Json.obj [("arguments", arguments)]
        ⟨externalToolOutcome net tnS arguments external_endpoint,
         [Effect.toolEndpointLookup tn,
          Effect.httpPost external_endpoint reqBody EXTERNAL_CALL_TIMEOUT]⟩
    | none =>
        match lookupByJson env.localToolClasses tn with
        | none =>
            ⟨.error ⟨404, "Tool \x27" ++ tnS
              ++ "\x27 not found in registry (local or external)."⟩,
             [Effect.toolEndpointLookup tn, Effect.toolClassLookup tn]⟩
        | some tool_class =>
            let context := payload.sessionContext.map SessionContext.dumpJson
            ⟨localToolOutcome tnS (tool_class arguments context),
             [Effect.toolEndpointLookup tn, Effect.toolClassLookup tn,
              Effect.localExec tn arguments context]⟩

/-- The forward branch of `run_agent` (messaging.py lines 171-208): require
a truthy contact endpoint (400 otherwise), re-validate it as an HTTP URL
(500 otherwise, a deliberate internal-config error), then schedule the
background dispatch of the whole payload and return the acceptance
envelope. -/
def forwardOutput (agent_id : String) (payload : MessagePayload)
    (target_agent : AgentInfo) : RunOutput :=
  let contact := target_agent.contactEndpoint.getD ""
  if contact == "" then
    ⟨.error ⟨400, "Agent \x27" ++ agent_id
      ++ "\x27 has no registered contact endpoint. Cannot dispatch message type \x27"
      ++ payload.messageType ++ "\x27."⟩, []⟩
  else if !(isValidHttpUrl contact) then
    ⟨.error ⟨500, "Agent \x27" ++ agent_id
      ++ "\x27 has an invalid registered contact endpoint URL."⟩, []⟩
  else
    ⟨.ok ⟨"success",
      some ("Task accepted for agent " ++ agent_id ++ ". Dispatch scheduled."),
      some (Json.obj
        [("agentId", Json.str agent_id),
         ("dispatch_status", Json.str "scheduled")]),
      none⟩,
     [Effect.scheduleTask agent_id contact payload]⟩

/-- Embedding of the FastAPI endpoint `run_agent` (messaging.py lines
30-208).  The route is declared with `status_code=202`, so a normal
`ApiResponse` return is served as HTTP 202 while a raised `HTTPException`
carries its own status code (see `RunOutput.httpStatus`). -/
def run_agent (env : Env) (net : Net) (agent_id : String)
    (payload : MessagePayload) : RunOutput :=
  match dictGet env.agents agent_id with
  | none =>
      ⟨.error ⟨404, "Agent with ID \x27" ++ agent_id ++ "\x27 not found."⟩,
       [Effect.directoryLookup agent_id]⟩
  | some target_agent =>
      let o :=
        if payload.messageType == "tool_invocation" then
          toolInvocationOutput env net payload
        else
          forwardOutput agent_id payload target_agent
      ⟨o.result, Effect.directoryLookup agent_id :: o.effects⟩

/-- The caller-visible HTTP status of a `run_agent` outcome: the route
default 202 for a normal return, the exception status for a raised
`HTTPException`. -/
def RunOutput.httpStatus (o : RunOutput) : Nat :=
  match o.result with
  | .ok _ => 202
  | .error e => e.status_code

/-- The scheduled background dispatch tasks recorded in an effect trace. -/
def scheduledTasks : List Effect → List (String × String × MessagePayload)
  | [] => []
  | Effect.scheduleTask a c p :: rest => (a, c, p) :: scheduledTasks rest
  | _ :: rest => scheduledTasks rest

/-- Test for a blocking outbound HTTP call in the effect trace. -/
def Effect.isHttpPost : Effect → Bool
  | Effect.httpPost _ _ _ => true
  | _ => false

/-- Test for a tool catalogue lookup (endpoint or class registry) in the
effect trace. -/
def Effect.isToolLookup : Effect → Bool
  | Effect.toolEndpointLookup _ => true
  | Effect.toolClassLookup _ => true
  | _ => false

/-- One log record emitted by the background dispatch task. -/
inductive LogRecord where
  | info (message : String)
  | error (message : String)
  | exceptionLog (message : String)

/-- The observable behaviour of one background dispatch task run: the HTTP
calls attempted (url, body, timeout seconds), the log records emitted, and
the exception escaping the task, if any. -/
structure DispatchOutput where
  httpCalls : List (String × Json × ℚ)
  logs : List LogRecord
  raised : Option String

/-- Embedding of the background task `dispatch_to_agent_endpoint`
(messaging.py lines 211-244): serialize the payload, POST it once to the
contact endpoint under the external call timeout, and log the outcome;
every httpx failure class and any other exception is caught and logged,
nothing is re-raised and nothing is returned to the original caller. -/
def dispatch_to_agent_endpoint (net : Net) (agent_id : String)
    (contact_endpoint : String) (payload : MessagePayload) : DispatchOutput :=
  let dispatch_payload := payload.dumpJson
  let preLog := LogRecord.info ("[Background Task] Dispatching message type \x27"
    ++ payload.messageType ++ "\x27 to " ++ contact_endpoint ++ " for agent "
    ++ agent_id)
  let call := (contact_endpoint, dispatch_payload, EXTERNAL_CALL_TIMEOUT)
  match net contact_endpoint dispatch_payload with
  | .response statusCode jsonBody text =>
      if is2xx statusCode then
        ⟨[call],
         [preLog, LogRecord.info ("[Background Task] Successfully dispatched message to agent "
           ++ agent_id ++ " at " ++ contact_endpoint ++ ". Status: "
           ++ toString statusCode)],
         none⟩
      else
        ⟨[call],
         [preLog, LogRecord.error (httpStatusErrorDetail
           ("[Background Task] Agent \x27" ++ agent_id ++ "\x27 endpoint ("
             ++ contact_endpoint ++ ") returned error: Status " ++ toString statusCode)
           jsonBody text)],
         none⟩
  | .timeout m =>
      ⟨[call],
       [preLog, LogRecord.error ("[Background Task] Dispatch request to agent \x27"
         ++ agent_id ++ "\x27 at " ++ contact_endpoint
         ++ " timed out or connection failed unexpectedly: " ++ m)],
       none⟩
  | .remoteProtocolError m =>
      ⟨[call],
       [preLog, LogRecord.error ("[Background Task] Dispatch request to agent \x27"
         ++ agent_id ++ "\x27 at " ++ contact_endpoint
         ++ " timed out or connection failed unexpectedly: " ++ m)],
       none⟩
  | .connectError =>
      ⟨[call],
       [preLog, LogRecord.error ("[Background Task] Could not connect to agent \x27"
         ++ agent_id ++ "\x27 at " ++ contact_endpoint ++ ".")],
       none⟩
  | .otherError _ =>
      ⟨[call],
       [preLog, LogRecord.exceptionLog
         ("[Background Task] An unexpected error occurred while dispatching message to agent \x27"
           ++ agent_id ++ "\x27 at " ++ contact_endpoint ++ ".")],
       none⟩

/-- Lookup of a key in a JSON object (returns none on non-objects). -/
def Json.objGet : Json → String → Option Json
  | .obj kvs, k => dictGet kvs k
  | _, _ => none

/-- A network oracle under which every outbound call fails to connect; used
by scenarios that must not depend on the network. -/
def demoNet : Net := fun _ _ => HttpCallResult.connectError

/-- A forward-path message with body a=1 (the round-trip scenario of the
spec). -/
def demoMsgFwd : MessagePayload :=
  ⟨"dispatch-tester", 0, "custom_instruction", [("a", Json.num 1)], none, none, none, none⟩

/-- A registered agent with a valid callback address. -/
def demoAgent : AgentInfo :=
  ⟨"agent-1", "Receiver", ["receive"], "1.0", some "http://x/y", none, 0⟩

/-- Directory holding only `demoAgent`. -/
def demoEnvFwd : Env := ⟨[("agent-1", demoAgent)], [], []⟩

/-- The acceptance envelope the dispatcher actually returns on the forward
path for `demoAgent`. -/
def c1Resp : ApiResponse :=
  ⟨"success", some "Task accepted for agent agent-1. Dispatch scheduled.",
   some (Json.obj [("agentId", Json.str "agent-1"), ("dispatch_status", Json.str "scheduled")]),
   none⟩

/-- A registered agent whose contact endpoint is absent. -/
def c2AgentNone : AgentInfo := ⟨"agent-4", "NoUrl", [], "1.0", none, none, 0⟩

/-- A registered agent whose contact endpoint is present but not a valid
HTTP URL. -/
def c2AgentBad : AgentInfo := ⟨"agent-3", "Bad", [], "1.0", some "not-a-url", none, 0⟩

/-- Directory holding the two defective agents. -/
def c2Env : Env := ⟨[("agent-3", c2AgentBad), ("agent-4", c2AgentNone)], [], []⟩

/-- A handled tool error mapping, with its error_message field. -/
def c3ErrMap : Json :=
  Json.obj [("status", Json.str "error"), ("error_message", Json.str "Tool failed as expected")]

/-- A local tool class returning the handled error mapping. -/
def c3LocalTool : LocalToolClass := fun _ _ => ToolExecResult.ok c3ErrMap

/-- Environment registering the local handled-error tool. -/
def c3EnvLoc : Env :=
  ⟨[("agent-1", demoAgent)], [], [("mock_handled_error", c3LocalTool)]⟩

/-- Tool-invocation message for the local handled-error tool. -/
def c3MsgLoc : MessagePayload :=
  ⟨"tool-caller-agent", 0, "tool_invocation",
   [("tool_name", Json.str "mock_handled_error")], none, none, none, none⟩

/-- Environment registering a remote tool endpoint. -/
def c3EnvExt : Env :=
  ⟨[("agent-1", demoAgent)], [("remote_err", "http://tool.example/run")], []⟩

/-- Tool-invocation message for the remote tool. -/
def c3MsgExt : MessagePayload :=
  ⟨"tool-caller-agent", 0, "tool_invocation",
   [("tool_name", Json.str "remote_err")], none, none, none, none⟩

/-- A network under which the remote tool answers 200 with the handled
error mapping as body. -/
def c3Net : Net := fun _ _ => HttpCallResult.response 200 (Except.ok c3ErrMap) ""

/-- Environment registering a remote tool endpoint named remote. -/
def c4Env : Env :=
  ⟨[("agent-1", demoAgent)], [("remote", "http://tool.example/run")], []⟩

/-- Tool-invocation message for the remote tool named remote. -/
def c4Msg : MessagePayload :=
  ⟨"tool-caller-agent", 0, "tool_invocation",
   [("tool_name", Json.str "remote")], none, none, none, none⟩

/-- A network under which every outbound call times out. -/
def c4NetTimeout : Net := fun _ _ => HttpCallResult.timeout "timed out"

/-- The round-trip scenario message: kind custom, body a=1. -/
def c5Msg : MessagePayload :=
  ⟨"sender-1", 0, "custom", [("a", Json.num 1)], none, none, none, none⟩

/-- A second, definitionally equal copy of the scheduled message, used to
instantiate the unmutated-delivery theorem at a concrete scheduled task. -/
def c5Sched : MessagePayload :=
  ⟨"sender-1", 0, "custom", [("a", Json.num 1)], none, none, none, none⟩

/-- A plain non-tool message for an unregistered agent. -/
def c7Msg : MessagePayload :=
  ⟨"sender-agent-123", 0, "data_response", [("result", Json.num 42)], none, none, none, none⟩

/-- A tool-invocation message lacking the tool_name key. -/
def c8Msg : MessagePayload :=
  ⟨"tool-caller-agent", 0, "tool_invocation",
   [("parameters", Json.obj [])], none, none, none, none⟩

/-- A local tool class that raises during execution. -/
def c9Tool : LocalToolClass :=
  fun _ _ => ToolExecResult.raises "Something broke unexpectedly inside the tool!"

/-- Environment registering the crashing local tool. -/
def c9Env : Env :=
  ⟨[("agent-1", demoAgent)], [], [("mock_unexpected_error", c9Tool)]⟩

/-- Tool-invocation message for the crashing tool. -/
def c9Msg : MessagePayload :=
  ⟨"tool-caller-agent", 0, "tool_invocation",
   [("tool_name", Json.str "mock_unexpected_error")], none, none, none, none⟩

/-- A local tool class registered under the same name as a remote endpoint
(the precedence scenario). -/
def c10Tool : LocalToolClass := fun _ _ => ToolExecResult.ok (Json.str "local ran")

/-- Environment registering the name dual both as an external endpoint and
as a local class. -/
def c10Env : Env :=
  ⟨[("agent-1", demoAgent)], [("dual", "http://ext.example/run")], [("dual", c10Tool)]⟩

/-- Tool-invocation message for the doubly registered name. -/
def c10Msg : MessagePayload :=
  ⟨"tool-caller-agent", 0, "tool_invocation",
   [("tool_name", Json.str "dual")], none, none, none, none⟩

/-- A scheduleTask effect is never produced by the tool-invocation branch. -/
theorem scheduleTask_not_in_toolInvocation (env : Env) (net : Net)
    (p : MessagePayload) (a c : String) (q : MessagePayload) :
    Effect.scheduleTask a c q ∉ (toolInvocationOutput env net p).effects := by
  simp only [toolInvocationOutput]
  split
  · simp
  · split
    · simp
    · split <;> simp

/-- A localExec effect of the tool-invocation branch carries exactly the
arguments extracted from the message body and the dumped session context. -/
theorem localExec_in_toolInvocation (env : Env) (net : Net)
    (p : MessagePayload) (t args : Json) (ctx : Option Json) :
    Effect.localExec t args ctx ∈ (toolInvocationOutput env net p).effects →
      args = (dictGet p.payload "arguments").getD (Json.obj []) ∧
      ctx = p.sessionContext.map SessionContext.dumpJson := by
  simp only [toolInvocationOutput]
  split
  · simp
  · split
    · simp
    · split
      · simp
      · intro h
        simp at h
        exact ⟨h.2.1, h.2.2⟩

/-- A scheduleTask effect of the forward branch carries the target agent id
and the message itself. -/
theorem scheduleTask_in_forward (agent_id : String) (p : MessagePayload)
    (ta : AgentInfo) (a c : String) (q : MessagePayload) :
    Effect.scheduleTask a c q ∈ (forwardOutput agent_id p ta).effects →
      a = agent_id ∧ q = p := by
  simp only [forwardOutput]
  split
  · simp
  · split
    · simp
    · intro h
      simp at h
      exact ⟨h.1, h.2.2⟩

/-- The forward branch never executes a local tool. -/
theorem localExec_not_in_forward (agent_id : String) (p : MessagePayload)
    (ta : AgentInfo) (t args : Json) (ctx : Option Json) :
    Effect.localExec t args ctx ∉ (forwardOutput agent_id p ta).effects := by
  simp only [forwardOutput]
  split
  · simp
  · split <;> simp

/-- Claim C1 (amended): for every forward-path message addressed to a
registered agent with a valid callback address, `run_agent` returns the
accepted outcome (HTTP 202) with a summary naming the agent and stating
that dispatch was scheduled, its payload being the small status mapping
with agentId and dispatch_status scheduled (not null), performs no blocking
HTTP call before returning, and its entire output is independent of the
network oracle. -/
theorem c1_forward_accepted (env : Env) (net : Net) (agent_id : String)
    (p : MessagePayload) (a : AgentInfo) (url : String)
    (hA : dictGet env.agents agent_id = some a)
    (hK : p.messageType ≠ "tool_invocation")
    (hC : a.contactEndpoint = some url)
    (hne : url ≠ "")
    (hV : isValidHttpUrl url = true) :
    (run_agent env net agent_id p).result =
      .ok ⟨"success",
        some ("Task accepted for agent " ++ agent_id ++ ". Dispatch scheduled."),
        some (Json.obj
          [("agentId", Json.str agent_id),
           ("dispatch_status", Json.str "scheduled")]),
        none⟩ ∧
    (run_agent env net agent_id p).httpStatus = 202 ∧
    (∀ e ∈ (run_agent env net agent_id p).effects, e.isHttpPost = false) ∧
    (∀ net2 : Net, run_agent env net2 agent_id p = run_agent env net agent_id p) := by
  refine ⟨?_, ?_, ?_, ?_⟩
  · simp [run_agent, hA, hK, hC, hne, hV, forwardOutput]
  · simp [run_agent, hA, hK, hC, hne, hV, forwardOutput, RunOutput.httpStatus]
  · simp [run_agent, hA, hK, hC, hne, hV, forwardOutput, Effect.isHttpPost]
  · intro net2
    simp [run_agent, hA, hK, forwardOutput]

/-- Claim C1, counterexample to the claim as stated: on the forward path
with a registered agent and valid callback, the returned payload is the
mapping with agentId and dispatch_status, which is not null. -/
theorem c1_counterexample :
    demoMsgFwd.messageType ≠ "tool_invocation" ∧
    demoAgent.contactEndpoint = some "http://x/y" ∧
    isValidHttpUrl "http://x/y" = true ∧
    (run_agent demoEnvFwd demoNet "agent-1" demoMsgFwd).httpStatus = 202 ∧
    (run_agent demoEnvFwd demoNet "agent-1" demoMsgFwd).result = Except.ok c1Resp ∧
    c1Resp.data ≠ none :=
  ⟨by decide, rfl, rfl, rfl, rfl, by simp [c1Resp]⟩

/-- Claim C1, witness: the amended theorem applied to a concrete registered
agent with the valid callback address used throughout. -/
theorem c1_witness :
    demoMsgFwd.messageType ≠ "tool_invocation" ∧
    isValidHttpUrl "http://x/y" = true ∧
    (run_agent demoEnvFwd demoNet "agent-1" demoMsgFwd).result = Except.ok c1Resp ∧
    (run_agent demoEnvFwd demoNet "agent-1" demoMsgFwd).httpStatus = 202 :=
  ⟨by decide, rfl,
   (c1_forward_accepted demoEnvFwd demoNet "agent-1" demoMsgFwd demoAgent "http://x/y"
     rfl (by decide) rfl (by decide) rfl).1,
   (c1_forward_accepted demoEnvFwd demoNet "agent-1" demoMsgFwd demoAgent "http://x/y"
     rfl (by decide) rfl (by decide) rfl).2.1⟩

/-- Claim C2 (amended): on the forward path, an absent or empty callback
address fails synchronously with the no-contact-endpoint error as a
400-equivalent, while a present but URL-invalid callback address fails
synchronously with the invalid-endpoint error as a 500-equivalent internal
configuration error; in both cases no background dispatch is scheduled. -/
theorem c2_no_callback (env : Env) (net : Net) (agent_id : String)
    (p : MessagePayload) (a : AgentInfo)
    (hA : dictGet env.agents agent_id = some a)
    (hK : p.messageType ≠ "tool_invocation") :
    (a.contactEndpoint.getD "" = "" →
      (run_agent env net agent_id p).result =
        .error ⟨400, "Agent \x27" ++ agent_id
          ++ "\x27 has no registered contact endpoint. Cannot dispatch message type \x27"
          ++ p.messageType ++ "\x27."⟩ ∧
      scheduledTasks (run_agent env net agent_id p).effects = []) ∧
    (∀ url, a.contactEndpoint = some url → url ≠ "" → isValidHttpUrl url = false →
      (run_agent env net agent_id p).result =
        .error ⟨500, "Agent \x27" ++ agent_id
          ++ "\x27 has an invalid registered contact endpoint URL."⟩ ∧
      (run_agent env net agent_id p).httpStatus = 500 ∧
      scheduledTasks (run_agent env net agent_id p).effects = []) := by
  constructor
  · intro hC
    constructor <;>
      simp [run_agent, hA, hK, hC, forwardOutput, scheduledTasks]
  · intro url hC hne hV
    refine ⟨?_, ?_, ?_⟩ <;>
      simp [run_agent, hA, hK, hC, hne, hV, forwardOutput, RunOutput.httpStatus,
        scheduledTasks]

/-- Claim C2, counterexample to the claim as stated: an agent whose
callback address is present but not a valid URL is rejected with HTTP 500,
not the 400-equivalent the claim requires for the invalid case. -/
theorem c2_counterexample :
    c2AgentBad.contactEndpoint = some "not-a-url" ∧
    isValidHttpUrl "not-a-url" = false ∧
    (run_agent c2Env demoNet "agent-3" demoMsgFwd).httpStatus = 500 ∧
    (run_agent c2Env demoNet "agent-3" demoMsgFwd).httpStatus ≠ 400 :=
  ⟨rfl, rfl, rfl, by decide⟩

/-- Claim C2, witness: the amended theorem applied to the absent-endpoint
agent (400) and to the invalid-endpoint agent (500). -/
theorem c2_witness :
    (run_agent c2Env demoNet "agent-4" demoMsgFwd).result =
      Except.error ⟨400,
        "Agent \x27agent-4\x27 has no registered contact endpoint. Cannot dispatch message type \x27custom_instruction\x27."⟩ ∧
    (run_agent c2Env demoNet "agent-3" demoMsgFwd).httpStatus = 500 :=
  ⟨((c2_no_callback c2Env demoNet "agent-4" demoMsgFwd c2AgentNone rfl (by decide)).1 rfl).1,
   ((c2_no_callback c2Env demoNet "agent-3" demoMsgFwd c2AgentBad rfl (by decide)).2
     "not-a-url" rfl (by decide) rfl).2.1⟩

/-- Claim C3: a tool invocation whose result mapping carries status error —
whether returned by a local handler or decoded from a remote 2xx response
body — yields an error outcome whose error code names where the tool ran
(LOCAL_TOOL_EXECUTION_FAILED locally, EXTERNAL_TOOL_EXECUTION_FAILED
remotely) and whose payload is the original error mapping unchanged. -/
theorem c3_handled_tool_error (env1 env2 : Env) (net1 net2 : Net)
    (id1 id2 : String) (p1 p2 : MessagePayload) (a1 a2 : AgentInfo)
    (tn1 tn2 : String) (tool : LocalToolClass) (er1 er2 : Json)
    (url : String) (c : Nat) (text : String)
    (hA1 : dictGet env1.agents id1 = some a1)
    (hK1 : p1.messageType = "tool_invocation")
    (hT1 : dictGet p1.payload "tool_name" = some (Json.str tn1))
    (hne1 : tn1 ≠ "")
    (hExt1 : dictGet env1.externalToolEndpoints tn1 = none)
    (hLoc1 : dictGet env1.localToolClasses tn1 = some tool)
    (hRun1 : tool ((dictGet p1.payload "arguments").getD (Json.obj []))
        (p1.sessionContext.map SessionContext.dumpJson) = ToolExecResult.ok er1)
    (hErr1 : er1.isErrorDict = true)
    (hA2 : dictGet env2.agents id2 = some a2)
    (hK2 : p2.messageType = "tool_invocation")
    (hT2 : dictGet p2.payload "tool_name" = some (Json.str tn2))
    (hne2 : tn2 ≠ "")
    (hExt2 : dictGet env2.externalToolEndpoints tn2 = some url)
    (hNet2 : net2 url (Json.obj
        [("arguments", (dictGet p2.payload "arguments").getD (Json.obj []))]) =
      HttpCallResult.response c (Except.ok er2) text)
    (h2xx : is2xx c = true)
    (hErr2 : er2.isErrorDict = true) :
    ((run_agent env1 net1 id1 p1).result =
      .ok ⟨"error",
        some ("Local tool \x27" ++ tn1 ++ "\x27 execution failed: " ++ errMsgStr er1),
        some er1, some "LOCAL_TOOL_EXECUTION_FAILED"⟩) ∧
    ((run_agent env2 net2 id2 p2).result =
      .ok ⟨"error",
        some ("External tool \x27" ++ tn2 ++ "\x27 execution failed: " ++ errMsgStr er2),
        some er2, some "EXTERNAL_TOOL_EXECUTION_FAILED"⟩) := by
  constructor
  · simp [run_agent, hA1, hK1, hT1, hne1, hExt1, hLoc1, hRun1, hErr1,
      toolInvocationOutput, optFalsy, Json.falsy, lookupByJson, Json.pyStr,
      localToolOutcome]
  · simp [run_agent, hA2, hK2, hT2, hne2, hExt2, hNet2, h2xx, hErr2,
      toolInvocationOutput, optFalsy, Json.falsy, lookupByJson, Json.pyStr,
      externalToolOutcome]

/-- Claim C3, witness: a local tool and a remote tool both answering the
handled error mapping with error_message Tool failed as expected. -/
theorem c3_witness :
    c3ErrMap.isErrorDict = true ∧
    (run_agent c3EnvLoc demoNet "agent-1" c3MsgLoc).result =
      Except.ok ⟨"error",
        some "Local tool \x27mock_handled_error\x27 execution failed: Tool failed as expected",
        some c3ErrMap, some "LOCAL_TOOL_EXECUTION_FAILED"⟩ ∧
    (run_agent c3EnvExt c3Net "agent-1" c3MsgExt).result =
      Except.ok ⟨"error",
        some "External tool \x27remote_err\x27 execution failed: Tool failed as expected",
        some c3ErrMap, some "EXTERNAL_TOOL_EXECUTION_FAILED"⟩ :=
  ⟨rfl,
   (c3_handled_tool_error c3EnvLoc c3EnvExt demoNet c3Net "agent-1" "agent-1"
     c3MsgLoc c3MsgExt demoAgent demoAgent "mock_handled_error" "remote_err"
     c3LocalTool c3ErrMap c3ErrMap "http://tool.example/run" 200 ""
     rfl rfl rfl (by decide) rfl rfl rfl rfl
     rfl rfl rfl (by decide) rfl rfl rfl rfl).1,
   (c3_handled_tool_error c3EnvLoc c3EnvExt demoNet c3Net "agent-1" "agent-1"
     c3MsgLoc c3MsgExt demoAgent demoAgent "mock_handled_error" "remote_err"
     c3LocalTool c3ErrMap c3ErrMap "http://tool.example/run" 200 ""
     rfl rfl rfl (by decide) rfl rfl rfl rfl
     rfl rfl rfl (by decide) rfl rfl rfl rfl).2⟩

/-- Claim C4: every remote-tool invocation performs its outbound POST under
the fixed 15-second timeout, and its failures are classified exactly:
timeout gives the specific 504 timeout error, connection failure gives 503,
and a non-2xx response is re-raised with the remote tool status code
itself. -/
theorem c4_external_failures (env : Env) (net : Net) (agent_id : String)
    (p : MessagePayload) (a : AgentInfo) (tn url : String)
    (hA : dictGet env.agents agent_id = some a)
    (hK : p.messageType = "tool_invocation")
    (hT : dictGet p.payload "tool_name" = some (Json.str tn))
    (hne : tn ≠ "")
    (hExt : dictGet env.externalToolEndpoints tn = some url) :
    (EXTERNAL_CALL_TIMEOUT = 15 ∧
      Effect.httpPost url
        (Json.obj [("arguments", (dictGet p.payload "arguments").getD (Json.obj []))])
        EXTERNAL_CALL_TIMEOUT ∈ (run_agent env net agent_id p).effects) ∧
    (∀ m, net url (Json.obj
        [("arguments", (dictGet p.payload "arguments").getD (Json.obj []))]) =
        HttpCallResult.timeout m →
      (run_agent env net agent_id p).result =
        .error ⟨504, "Request to external tool \x27" ++ tn ++ "\x27 timed out."⟩) ∧
    (net url (Json.obj
        [("arguments", (dictGet p.payload "arguments").getD (Json.obj []))]) =
        HttpCallResult.connectError →
      (run_agent env net agent_id p).result =
        .error ⟨503, "Could not connect to external tool \x27" ++ tn ++ "\x27 at "
          ++ url ++ "."⟩) ∧
    (∀ c jsonBody text, net url (Json.obj
        [("arguments", (dictGet p.payload "arguments").getD (Json.obj []))]) =
        HttpCallResult.response c jsonBody text →
      is2xx c = false →
      (run_agent env net agent_id p).httpStatus = c) := by
  refine ⟨⟨rfl, ?_⟩, ?_, ?_, ?_⟩
  · simp [run_agent, hA, hK, hT, hne, hExt, toolInvocationOutput, optFalsy,
      Json.falsy, lookupByJson, Json.pyStr]
  · intro m hNet
    simp [run_agent, hA, hK, hT, hne, hExt, hNet, toolInvocationOutput, optFalsy,
      Json.falsy, lookupByJson, Json.pyStr, externalToolOutcome]
  · intro hNet
    simp [run_agent, hA, hK, hT, hne, hExt, hNet, toolInvocationOutput, optFalsy,
      Json.falsy, lookupByJson, Json.pyStr, externalToolOutcome]
  · intro c jsonBody text hNet hc
    simp [run_agent, hA, hK, hT, hne, hExt, hNet, hc, toolInvocationOutput, optFalsy,
      Json.falsy, lookupByJson, Json.pyStr, externalToolOutcome, RunOutput.httpStatus]

/-- Claim C4, witness: a remote tool whose call times out yields the
specific 504 timeout failure under the 15-second timeout constant. -/
theorem c4_witness :
    EXTERNAL_CALL_TIMEOUT = 15 ∧
    (run_agent c4Env c4NetTimeout "agent-1" c4Msg).result =
      Except.error ⟨504, "Request to external tool \x27remote\x27 timed out."⟩ :=
  ⟨(c4_external_failures c4Env c4NetTimeout "agent-1" c4Msg demoAgent "remote"
     "http://tool.example/run" rfl rfl rfl (by decide) rfl).1.1,
   (c4_external_failures c4Env c4NetTimeout "agent-1" c4Msg demoAgent "remote"
     "http://tool.example/run" rfl rfl rfl (by decide) rfl).2.1 "timed out" rfl⟩

/-- Claim C5: the message given to `run_agent` is delivered unchanged — any
scheduled forward task carries the very message that was passed in, any
local tool execution receives exactly the arguments sub-mapping and dumped
session context of that message, and the serialized form the scheduler
posts preserves the body, senderId and messageType fields on the JSON
round-trip. -/
theorem c5_message_unmutated (env : Env) (net : Net) (agent_id : String)
    (p : MessagePayload) :
    (∀ a c q, Effect.scheduleTask a c q ∈ (run_agent env net agent_id p).effects →
      a = agent_id ∧ q = p) ∧
    (∀ t args ctx,
      Effect.localExec t args ctx ∈ (run_agent env net agent_id p).effects →
      args = (dictGet p.payload "arguments").getD (Json.obj []) ∧
      ctx = p.sessionContext.map SessionContext.dumpJson) ∧
    Json.objGet (MessagePayload.dumpJson p) "payload" = some (Json.obj p.payload) ∧
    Json.objGet (MessagePayload.dumpJson p) "senderId" = some (Json.str p.senderId) ∧
    Json.objGet (MessagePayload.dumpJson p) "messageType" =
      some (Json.str p.messageType) ∧
    (∀ a c q, Effect.scheduleTask a c q ∈ (run_agent env net agent_id p).effects →
      Json.objGet (MessagePayload.dumpJson q) "payload" = some (Json.obj p.payload)) := by
  have hMemS : ∀ a c q,
      Effect.scheduleTask a c q ∈ (run_agent env net agent_id p).effects →
      a = agent_id ∧ q = p := by
    intro a c q h
    unfold run_agent at h
    cases hA : dictGet env.agents agent_id <;> rw [hA] at h
    · simp at h
    · simp at h
      by_cases hK : p.messageType = "tool_invocation"
      · simp [hK] at h
        exact absurd h (scheduleTask_not_in_toolInvocation env net p a c q)
      · simp [hK] at h
        exact scheduleTask_in_forward agent_id p _ a c q h
  refine ⟨hMemS, ?_, ?_, ?_, ?_, ?_⟩
  · intro t args ctx h
    unfold run_agent at h
    cases hA : dictGet env.agents agent_id <;> rw [hA] at h
    · simp at h
    · simp at h
      by_cases hK : p.messageType = "tool_invocation"
      · simp [hK] at h
        exact localExec_in_toolInvocation env net p t args ctx h
      · simp [hK] at h
        exact absurd h (localExec_not_in_forward agent_id p _ t args ctx)
  · simp [MessagePayload.dumpJson, Json.objGet, dictGet]
  · simp [MessagePayload.dumpJson, Json.objGet, dictGet]
  · simp [MessagePayload.dumpJson, Json.objGet, dictGet]
  · intro a c q h
    have hq := (hMemS a c q h).2
    subst hq
    simp [MessagePayload.dumpJson, Json.objGet, dictGet]

/-- Claim C5, witness: in the spec round-trip scenario (kind custom, body
a=1, callback http://x/y) the scheduled task carries the message unchanged
and its serialized body is exactly the original mapping. -/
theorem c5_witness :
    Effect.scheduleTask "agent-1" "http://x/y" c5Sched ∈
      (run_agent demoEnvFwd demoNet "agent-1" c5Msg).effects ∧
    c5Sched = c5Msg ∧
    Json.objGet (MessagePayload.dumpJson c5Sched) "payload" =
      some (Json.obj [("a", Json.num 1)]) := by
  have hmem : Effect.scheduleTask "agent-1" "http://x/y" c5Sched ∈
      (run_agent demoEnvFwd demoNet "agent-1" c5Msg).effects := by
    have h : (run_agent demoEnvFwd demoNet "agent-1" c5Msg).effects =
        [Effect.directoryLookup "agent-1",
         Effect.scheduleTask "agent-1" "http://x/y" c5Sched] := rfl
    rw [h]
    exact List.mem_cons_of_mem _ (List.mem_cons_self _ _)
  exact ⟨hmem,
    ((c5_message_unmutated demoEnvFwd demoNet "agent-1" c5Msg).1
      "agent-1" "http://x/y" c5Sched hmem).2,
    (c5_message_unmutated demoEnvFwd demoNet "agent-1" c5Msg).2.2.2.2.2
      "agent-1" "http://x/y" c5Sched hmem⟩

/-- Claim C6: the background dispatch task makes exactly one delivery
attempt (under the 15-second timeout), lets no exception escape, and emits
exactly one outcome log record after its entry record, for every possible
network outcome — nothing is surfaced to the original caller. -/
theorem c6_deferred_terminal (net : Net) (agent_id contact_endpoint : String)
    (p : MessagePayload) :
    (dispatch_to_agent_endpoint net agent_id contact_endpoint p).httpCalls =
      [(contact_endpoint, p.dumpJson, EXTERNAL_CALL_TIMEOUT)] ∧
    (dispatch_to_agent_endpoint net agent_id contact_endpoint p).raised = none ∧
    (dispatch_to_agent_endpoint net agent_id contact_endpoint p).logs.length = 2 := by
  refine ⟨?_, ?_, ?_⟩ <;>
    · simp only [dispatch_to_agent_endpoint]
      cases hnet : net contact_endpoint p.dumpJson <;>
        first
          | rfl
          | (split <;> (try split) <;> rfl)

/-- Claim C7: an agent id absent from the directory yields the 404
AgentNotFound failure with no tool-catalogue lookup and no outbound HTTP
call, and on every input the directory lookup is the first effect of
`run_agent`. -/
theorem c7_agent_not_found (env : Env) (net : Net) (agent_id : String)
    (p : MessagePayload) :
    (dictGet env.agents agent_id = none →
      (run_agent env net agent_id p).result =
        .error ⟨404, "Agent with ID \x27" ++ agent_id ++ "\x27 not found."⟩ ∧
      (run_agent env net agent_id p).effects = [Effect.directoryLookup agent_id] ∧
      ∀ e ∈ (run_agent env net agent_id p).effects,
        e.isToolLookup = false ∧ e.isHttpPost = false) ∧
    (run_agent env net agent_id p).effects.head? =
      some (Effect.directoryLookup agent_id) := by
  constructor
  · intro h
    refine ⟨?_, ?_, ?_⟩ <;>
      simp [run_agent, h, Effect.isToolLookup, Effect.isHttpPost]
  · unfold run_agent
    cases dictGet env.agents agent_id <;> simp

/-- Claim C7, witness: an empty directory rejects agent-does-not-exist with
404 and performs only the directory lookup. -/
theorem c7_witness :
    dictGet (Env.mk [] [] []).agents "agent-does-not-exist" = none ∧
    (run_agent (Env.mk [] [] []) demoNet "agent-does-not-exist" c7Msg).result =
      Except.error ⟨404, "Agent with ID \x27agent-does-not-exist\x27 not found."⟩ ∧
    (run_agent (Env.mk [] [] []) demoNet "agent-does-not-exist" c7Msg).effects =
      [Effect.directoryLookup "agent-does-not-exist"] :=
  ⟨rfl,
   ((c7_agent_not_found (Env.mk [] [] []) demoNet "agent-does-not-exist" c7Msg).1 rfl).1,
   ((c7_agent_not_found (Env.mk [] [] []) demoNet "agent-does-not-exist" c7Msg).1 rfl).2.1⟩

/-- Claim C8: a tool_invocation message whose body lacks a tool name (or
whose tool name is falsy, e.g. empty) fails with the 400 MissingToolName
error, and the effect trace shows no tool-catalogue lookup was made. -/
theorem c8_missing_tool_name (env : Env) (net : Net) (agent_id : String)
    (p : MessagePayload) (a : AgentInfo)
    (hA : dictGet env.agents agent_id = some a)
    (hK : p.messageType = "tool_invocation")
    (hT : optFalsy (dictGet p.payload "tool_name") = true) :
    (run_agent env net agent_id p).result =
      .error ⟨400, "Missing \x27tool_name\x27 in payload for tool_invocation message type."⟩ ∧
    (run_agent env net agent_id p).httpStatus = 400 ∧
    (run_agent env net agent_id p).effects = [Effect.directoryLookup agent_id] := by
  refine ⟨?_, ?_, ?_⟩ <;>
    simp [run_agent, hA, hK, hT, toolInvocationOutput, RunOutput.httpStatus]

/-- Claim C8, witness: a tool_invocation message without tool_name against
a registered agent is rejected with 400 after only the directory lookup. -/
theorem c8_witness :
    optFalsy (dictGet c8Msg.payload "tool_name") = true ∧
    (run_agent demoEnvFwd demoNet "agent-1" c8Msg).result =
      Except.error ⟨400,
        "Missing \x27tool_name\x27 in payload for tool_invocation message type."⟩ ∧
    (run_agent demoEnvFwd demoNet "agent-1" c8Msg).effects =
      [Effect.directoryLookup "agent-1"] :=
  ⟨rfl,
   (c8_missing_tool_name demoEnvFwd demoNet "agent-1" c8Msg demoAgent rfl rfl rfl).1,
   (c8_missing_tool_name demoEnvFwd demoNet "agent-1" c8Msg demoAgent rfl rfl rfl).2.2⟩

/-- Claim C9: a registered local tool whose handler raises yields the 500
ToolCrashed failure whose detail text embeds the triggering exception
message. -/
theorem c9_tool_crashed (env : Env) (net : Net) (agent_id : String)
    (p : MessagePayload) (a : AgentInfo) (tn : String) (tool : LocalToolClass)
    (m : String)
    (hA : dictGet env.agents agent_id = some a)
    (hK : p.messageType = "tool_invocation")
    (hT : dictGet p.payload "tool_name" = some (Json.str tn))
    (hne : tn ≠ "")
    (hExt : dictGet env.externalToolEndpoints tn = none)
    (hLoc : dictGet env.localToolClasses tn = some tool)
    (hRun : tool ((dictGet p.payload "arguments").getD (Json.obj []))
        (p.sessionContext.map SessionContext.dumpJson) = ToolExecResult.raises m) :
    (run_agent env net agent_id p).result =
      .error ⟨500, "An unexpected error occurred while executing local tool \x27"
        ++ tn ++ "\x27: " ++ m⟩ ∧
    (run_agent env net agent_id p).httpStatus = 500 := by
  constructor <;>
    simp [run_agent, hA, hK, hT, hne, hExt, hLoc, hRun, toolInvocationOutput,
      optFalsy, Json.falsy, lookupByJson, Json.pyStr, localToolOutcome,
      RunOutput.httpStatus]

/-- Claim C9, witness: the crashing tool of the test suite yields a 500
whose detail ends with the exception message. -/
theorem c9_witness :
    (run_agent c9Env demoNet "agent-1" c9Msg).result =
      Except.error ⟨500,
        "An unexpected error occurred while executing local tool \x27mock_unexpected_error\x27: Something broke unexpectedly inside the tool!"⟩ ∧
    (run_agent c9Env demoNet "agent-1" c9Msg).httpStatus = 500 :=
  ⟨(c9_tool_crashed c9Env demoNet "agent-1" c9Msg demoAgent "mock_unexpected_error"
     c9Tool "Something broke unexpectedly inside the tool!"
     rfl rfl rfl (by decide) rfl rfl rfl).1,
   (c9_tool_crashed c9Env demoNet "agent-1" c9Msg demoAgent "mock_unexpected_error"
     c9Tool "Something broke unexpectedly inside the tool!"
     rfl rfl rfl (by decide) rfl rfl rfl).2⟩

/-- Claim C10: the dispatcher resolves a tool name against the external
endpoint registry first — when an endpoint is registered the remote path is
taken with no local class lookup and no local execution; the ToolNotFound
failure and the local execution path arise only when the endpoint lookup
returns absent. -/
theorem c10_external_before_local (env : Env) (net : Net) (agent_id : String)
    (p : MessagePayload) (a : AgentInfo) (tn : String)
    (hA : dictGet env.agents agent_id = some a)
    (hK : p.messageType = "tool_invocation")
    (hT : dictGet p.payload "tool_name" = some (Json.str tn))
    (hne : tn ≠ "") :
    (∀ url, dictGet env.externalToolEndpoints tn = some url →
      (∀ t, Effect.toolClassLookup t ∉ (run_agent env net agent_id p).effects) ∧
      (∀ t q c, Effect.localExec t q c ∉ (run_agent env net agent_id p).effects) ∧
      (run_agent env net agent_id p).result =
        externalToolOutcome net tn
          ((dictGet p.payload "arguments").getD (Json.obj [])) url) ∧
    (dictGet env.externalToolEndpoints tn = none →
      dictGet env.localToolClasses tn = none →
      (run_agent env net agent_id p).result =
        .error ⟨404, "Tool \x27" ++ tn
          ++ "\x27 not found in registry (local or external)."⟩) ∧
    (∀ tool, dictGet env.externalToolEndpoints tn = none →
      dictGet env.localToolClasses tn = some tool →
      Effect.localExec (Json.str tn)
          ((dictGet p.payload "arguments").getD (Json.obj []))
          (p.sessionContext.map SessionContext.dumpJson)
        ∈ (run_agent env net agent_id p).effects ∧
      (run_agent env net agent_id p).result =
        localToolOutcome tn
          (tool ((dictGet p.payload "arguments").getD (Json.obj []))
            (p.sessionContext.map SessionContext.dumpJson))) := by
  refine ⟨?_, ?_, ?_⟩
  · intro url hUrl
    refine ⟨?_, ?_, ?_⟩ <;>
      simp [run_agent, hA, hK, hT, hne, hUrl, toolInvocationOutput, optFalsy,
        Json.falsy, lookupByJson, Json.pyStr]
  · intro hExt hLoc
    simp [run_agent, hA, hK, hT, hne, hExt, hLoc, toolInvocationOutput, optFalsy,
      Json.falsy, lookupByJson, Json.pyStr]
  · intro tool hExt hLoc
    constructor <;>
      simp [run_agent, hA, hK, hT, hne, hExt, hLoc, toolInvocationOutput, optFalsy,
        Json.falsy, lookupByJson, Json.pyStr]

/-- Claim C10, witness: a name registered both as an external endpoint and
as a local class is dispatched over HTTP, the outcome being exactly the
external-tool outcome. -/
theorem c10_witness :
    dictGet c10Env.externalToolEndpoints "dual" = some "http://ext.example/run" ∧
    dictGet c10Env.localToolClasses "dual" = some c10Tool ∧
    (run_agent c10Env demoNet "agent-1" c10Msg).result =
      externalToolOutcome demoNet "dual" (Json.obj []) "http://ext.example/run" :=
  ⟨rfl, rfl,
   ((c10_external_before_local c10Env demoNet "agent-1" c10Msg demoAgent "dual"
     rfl rfl rfl (by decide)).1 "http://ext.example/run" rfl).2.2⟩

end AgentKit
